import Mathlib

/-!
Shallow embedding of the chat orchestration + LLM pipeline of the `chatbot`
repository: configuration clamping, provider-failure classification,
`generateReply` fallback behaviour, bounded history retrieval, and the
`sendChatMessage` / `getChatSession` service operations.

The TypeScript sources embedded here:
- `backend/src/services/llm/generateReply.ts` (clampInt, classifyOpenAiError,
  generateReply, fallbackReply)
- `backend/src/services/llm/openaiClient.ts` (getOpenAiConfigFromEnv,
  getOpenAiClientFromEnvOrNull)
- `backend/src/services/chat/chatService.ts` (sendChatMessage, getChatSession)
- `backend/src/db/repositories/messageRepository.ts` and
  `conversationRepository.ts` (message/conversation data access)
- `backend/src/routes/chat.ts` (POST /chat/message handler)
- `backend/src/utils/apiError.ts` (ApiError)

Asynchrony is flattened: each run of the pipeline is parameterised by the
environment (`Env`) and by the outcome of the single external provider call
(`ProviderOutcome`). The data store (Prisma/PostgreSQL) is modelled as an
explicit `Store` value threaded through the operations.
-/

namespace Chatbot

/-- Direction of a stored chat message: `"inbound" | "outbound"`
(`messageRepository.ts`, `export type Direction`). -/
inductive Direction where
  | inbound
  | outbound
deriving DecidableEq, Repr

/-- JS `String.prototype.trim`, modelled on the underlying character list:
drop whitespace characters from both ends. -/
def jsTrim (s : String) : String :=
  ⟨((s.data.dropWhile Char.isWhitespace).reverse.dropWhile Char.isWhitespace).reverse⟩

/-- JS `String.prototype.toLowerCase`, modelled on the underlying character
list via `Char.toLower`. -/
def jsToLower (s : String) : String :=
  ⟨s.data.map Char.toLower⟩

/-- Whether `pat` occurs as a contiguous sublist, checking every start
position. -/
def subOccurs (pat : List Char) : List Char → Bool
  | [] => pat.isEmpty
  | a :: t => pat.isPrefixOf (a :: t) || subOccurs pat t

/-- JS `String.prototype.includes`: substring occurrence test. -/
def strIncludes (s pat : String) : Bool :=
  subOccurs pat.data s.data

/-- Abstraction of an optional environment-variable string as consumed by
`clampInt`: `absent` covers an unset variable or one that is blank after
trimming (the guard `typeof value === "string" && value.trim().length > 0`
fails, so `n = NaN`); `nonNumeric` covers a non-blank string whose JS
`Number(...)` is `NaN` or `±Infinity` (`Number.isFinite(n)` fails);
`numeric q` covers a non-blank string whose `Number(...)` is the finite
value `q` (rationals stand in for finite doubles). -/
inductive EnvNum where
  | absent
  | nonNumeric
  | numeric (q : ℚ)
deriving DecidableEq

/-- JS `Math.trunc`: truncation toward zero. -/
def ratTrunc (q : ℚ) : ℤ :=
  if 0 ≤ q then ⌊q⌋ else ⌈q⌉

/-- `clampInt` (three identical copies: `generateReply.ts` lines 43-47,
`openaiClient.ts` lines 8-12, `chatService.ts` lines 53-57): return `fallback`
on absent/blank/non-numeric input, otherwise
`Math.max(min, Math.min(max, Math.trunc(n)))`. -/
def clampInt (value : EnvNum) (min max fallback : ℤ) : ℤ :=
  match value with
  | .absent => fallback
  | .nonNumeric => fallback
  | .numeric q => Max.max min (Min.min max (ratTrunc q))

/-- The environment variables consulted by the chat pipeline. -/
structure Env where
  openaiApiKey : Option String
  openaiModel : Option String
  llmHistoryLimit : EnvNum
  llmMaxOutputTokens : EnvNum
  llmTimeoutMs : EnvNum

/-- `MAX_OUTPUT_TOKENS` (`generateReply.ts` line 51), as a function of the
environment since the TS module computes it from `process.env` at load. -/
def MAX_OUTPUT_TOKENS (env : Env) : ℤ :=
  clampInt env.llmMaxOutputTokens 1 2000 250

/-- `MAX_HISTORY_MESSAGES` (`generateReply.ts` line 52). -/
def MAX_HISTORY_MESSAGES (env : Env) : ℤ :=
  clampInt env.llmHistoryLimit 1 100 20

/-- `HISTORY_LIMIT` (`chatService.ts` line 61): the same expression as
`MAX_HISTORY_MESSAGES`, evaluated in the service module. -/
def HISTORY_LIMIT (env : Env) : ℤ :=
  clampInt env.llmHistoryLimit 1 100 20

/-- `timeoutMs` (`openaiClient.ts` line 34). -/
def LLM_TIMEOUT_MS (env : Env) : ℤ :=
  clampInt env.llmTimeoutMs 1000 120000 15000

/-- `MAX_HISTORY_MESSAGES` as a natural number for list truncation
(`slice(-n)`); the clamp guarantees the value is ≥ 1, so `toNat` is lossless. -/
def MAX_HISTORY_MESSAGES_nat (env : Env) : ℕ :=
  (MAX_HISTORY_MESSAGES env).toNat

/-- `HISTORY_LIMIT` as a natural number for the Prisma `take` argument. -/
def HISTORY_LIMIT_nat (env : Env) : ℕ :=
  (HISTORY_LIMIT env).toNat

/-- `process.env.OPENAI_MODEL?.trim() || "gpt-4o-mini"` (`openaiClient.ts`
line 18; the same expression appears at `generateReply.ts` lines 102 and 149). -/
def defaultedModel (env : Env) : String :=
  match env.openaiModel.map jsTrim with
  | none => "gpt-4o-mini"
  | some m => if m = "" then "gpt-4o-mini" else m

/-- `OpenAiClientConfig` (`openaiClient.ts` lines 3-6). -/
structure OpenAiClientConfig where
  apiKey : String
  model : String
deriving DecidableEq, Repr

/-- `getOpenAiConfigFromEnv` (`openaiClient.ts` lines 14-20): `null` when
`OPENAI_API_KEY` is unset or blank after trimming. -/
def getOpenAiConfigFromEnv (env : Env) : Option OpenAiClientConfig :=
  match env.openaiApiKey.map jsTrim with
  | none => none
  | some apiKey =>
    if apiKey = "" then none
    else some { apiKey := apiKey, model := defaultedModel env }

/-- The value produced by `getOpenAiClientFromEnvOrNull` (`openaiClient.ts`
lines 29-36). The OpenAI SDK client object is represented by the data it is
constructed from: the api key and the clamped timeout. -/
structure OpenAiClient where
  apiKey : String
  timeoutMs : ℤ
  model : String
deriving DecidableEq, Repr

/-- `getOpenAiClientFromEnvOrNull` (`openaiClient.ts` lines 29-36). -/
def getOpenAiClientFromEnvOrNull (env : Env) : Option OpenAiClient :=
  match getOpenAiConfigFromEnv env with
  | none => none
  | some cfg =>
    some { apiKey := cfg.apiKey, timeoutMs := LLM_TIMEOUT_MS env, model := cfg.model }

/-- `fallbackReply` (`generateReply.ts` lines 54-57). -/
def fallbackReply : String :=
  "Sorry, I\x27m having trouble right now. Please try again in a moment."

/-- Shape of a thrown provider error as probed by `classifyOpenAiError`
(`generateReply.ts` lines 59-97). Each field models the corresponding safe
property access on the unknown thrown value; `none` means the property is
absent or not of the JS type the code tests for. `errorStatus` / `errorCode`
model the nested `e.error.status` / `e.error.code`. -/
structure JsError where
  status : Option ℤ := none
  statusCode : Option ℤ := none
  code : Option String := none
  name : Option String := none
  message : Option String := none
  errorStatus : Option ℤ := none
  errorCode : Option String := none
deriving DecidableEq, Repr

/-- The `status` local of `classifyOpenAiError` (`generateReply.ts`
lines 69-76): `e.status` if it is a number, else `e.statusCode` if it is a
number, else `e.error.status` if that is a number. -/
def resolvedStatus (e : JsError) : Option ℤ :=
  match e.status with
  | some s => some s
  | none =>
    match e.statusCode with
    | some s => some s
    | none => e.errorStatus

/-- The `code` local of `classifyOpenAiError` (`generateReply.ts`
lines 78-83): `e.code` if it is a string, else `e.error.code` if that is a
string. -/
def resolvedCode (e : JsError) : Option String :=
  match e.code with
  | some c => some c
  | none => e.errorCode

/-- `classifyOpenAiError` (`generateReply.ts` lines 59-97). -/
def classifyOpenAiError (e : JsError) : String :=
  let status := resolvedStatus e
  let code := resolvedCode e
  if status = some 401 ∨ status = some 403 ∨ code = some "invalid_api_key" then
    "invalid_api_key"
  else if status = some 429 ∨ code = some "rate_limit_exceeded" then
    "rate_limit"
  else if e.name.getD "" = "AbortError" then
    "timeout"
  else if code = some "ETIMEDOUT" ∨ code = some "ECONNABORTED" then
    "timeout"
  else if strIncludes (jsToLower (e.message.getD "")) "timeout"
       ∨ strIncludes (jsToLower (e.message.getD "")) "timed out" then
    "timeout"
  else
    "provider_error"

/-- `SYSTEM_PROMPT` (`prompts.ts`): the fixed system policy text, an array of
lines joined with newlines. -/
def SYSTEM_PROMPT : String :=
  String.intercalate "\n"
    [ "You are a helpful, concise e-commerce customer support agent for the store \x27Spur\x27."
    , ""
    , "## Operating Rules"
    , "- Be friendly, professional, and direct."
    , "- Ask at most one clarifying question, and only when required to answer correctly."
    , "- Never invent order numbers, tracking numbers, refunds, delivery dates, or internal system actions."
    , "- If you are unsure or the question is outside the policies below, say so and offer next steps (contact support)."
    , ""
    , "## Store Policies (source of truth)"
    , "Shipping:"
    , "- Processing time: 1–2 business days."
    , "- Standard shipping: typically 3–7 business days after fulfillment."
    , "- Expedited shipping: may be available at checkout (when supported)."
    , ""
    , "Returns:"
    , "- Return window: within 30 days of delivery."
    , "- Condition: unused and in original packaging."
    , "- Refunds: issued to the original payment method after inspection."
    , ""
    , "Support hours:"
    , "- Monday–Friday, 9:00am–5:00pm local business time."
    , "- Messages outside support hours: handled the next business day."
    , ""
    , "## Policy-First Answering"
    , "- When the user asks about shipping/returns/support hours, answer using the Store Policies above."
    , "- If the Store Policies do not cover the request, do not guess—ask one clarifying question or suggest contacting support." ]

/-- `FAQ_KNOWLEDGE` (`prompts.ts`): the fixed FAQ text, an array of lines
joined with newlines. -/
def FAQ_KNOWLEDGE : String :=
  String.intercalate "\n"
    [ "FAQ knowledge (same facts as Store Policies; provided redundantly to improve recall):"
    , ""
    , "Shipping policy:"
    , "- Orders are processed in 1–2 business days."
    , "- Standard shipping typically arrives in 3–7 business days after fulfillment."
    , "- Expedited shipping options may be available at checkout (when supported)."
    , ""
    , "Return policy:"
    , "- Returns are accepted within 30 days of delivery."
    , "- Items must be unused and in original packaging."
    , "- Refunds are issued to the original payment method after inspection."
    , ""
    , "Support hours:"
    , "- Monday–Friday, 9:00am–5:00pm local business time."
    , "- Messages outside support hours will be handled the next business day." ]

/-- Role of a normalized history turn passed to `generateReply`:
`"user" | "assistant"` (`GenerateReplyInput` in `generateReply.ts`). -/
inductive ChatRole where
  | user
  | assistant
deriving DecidableEq, Repr

/-- One entry of `GenerateReplyInput.history` (`generateReply.ts` lines 16-25). -/
structure HistTurn where
  role : ChatRole
  content : String
deriving DecidableEq, Repr

/-- `toLlmRole` (`chatService.ts` lines 86-88). -/
def toLlmRole (d : Direction) : ChatRole :=
  match d with
  | .inbound => .user
  | .outbound => .assistant

/-- Role of an entry of the provider message list
(`ChatCompletionMessageParam`): system, user or assistant. -/
inductive PromptRole where
  | system
  | user
  | assistant
deriving DecidableEq, Repr

/-- One entry of the `messages` array sent to the provider
(`generateReply.ts` lines 115-119). -/
structure PromptMessage where
  role : PromptRole
  content : String
deriving DecidableEq, Repr

/-- The role mapping in `boundedHistory.map((m) => ({role: m.role, ...}))`. -/
def promptRoleOf : ChatRole → PromptRole
  | .user => .user
  | .assistant => .assistant

/-- JS `arr.slice(-n)` for `n ≥ 1`: the elements from index
`max(length - n, 0)` to the end, i.e. the last `n` elements (all of them when
fewer exist). Nat subtraction saturates exactly like the `max(…, 0)`. -/
def sliceLast (l : List α) (n : ℕ) : List α :=
  l.drop (l.length - n)

/-- `boundedHistory` (`generateReply.ts` line 113):
`input.history.slice(-MAX_HISTORY_MESSAGES)`. -/
def boundedHistory (env : Env) (history : List HistTurn) : List HistTurn :=
  sliceLast history (MAX_HISTORY_MESSAGES_nat env)

/-- The `messages` array sent to the provider (`generateReply.ts`
lines 115-119): the two fixed system texts followed by the bounded history. -/
def promptMessages (env : Env) (history : List HistTurn) : List PromptMessage :=
  { role := .system, content := SYSTEM_PROMPT } ::
  { role := .system, content := FAQ_KNOWLEDGE } ::
  (boundedHistory env history).map fun m =>
    { role := promptRoleOf m.role, content := m.content }

/-- Outcome of the single external provider call
`openai.client.chat.completions.create` (`generateReply.ts` lines 121-127):
either the promise resolves and `completion.choices[0]?.message?.content`
is the given optional string (`none` when the first choice, its message or
its content is absent/null), or the promise rejects with a thrown error. -/
inductive ProviderOutcome where
  | success (content : Option String)
  | threw (err : JsError)

/-- `GenerateReplyResult.meta` (`generateReply.ts` lines 32-37). -/
structure ReplyMeta where
  provider : String
  model : String
  usedFallback : Bool
  errorCode : Option String
deriving DecidableEq, Repr

/-- `GenerateReplyResult` (`generateReply.ts` lines 27-38). -/
structure GenerateReplyResult where
  reply : String
  meta : ReplyMeta
deriving DecidableEq, Repr

/-- Trace of one `generateReply` run: the returned value together with the
message list actually sent to the provider (`none` when the completion call
was never made, i.e. when the client is not configured). -/
structure GenTrace where
  result : GenerateReplyResult
  sent : Option (List PromptMessage)
deriving DecidableEq, Repr

/-- The `try` block of `generateReply` (`generateReply.ts` lines 100-140):
missing credential short-circuits to the fallback result without a provider
call; otherwise the provider call is made and a thrown error propagates as
`.error`; a resolved completion is checked for empty/whitespace content. -/
def generateReplyTry (env : Env) (history : List HistTurn)
    (outcome : ProviderOutcome) : Except JsError GenTrace :=
  match getOpenAiClientFromEnvOrNull env with
  | none =>
    .ok { result :=
            { reply := fallbackReply
            , meta := { provider := "openai", model := defaultedModel env
                      , usedFallback := true, errorCode := some "missing_api_key" } }
        , sent := none }
  | some openai =>
    let sent := promptMessages env history
    match outcome with
    | .threw err => .error err
    | .success content =>
      match content.map jsTrim with
      | none =>
        .ok { result :=
                { reply := fallbackReply
                , meta := { provider := "openai", model := openai.model
                          , usedFallback := true, errorCode := some "empty_response" } }
            , sent := some sent }
      | some reply =>
        if reply = "" then
          .ok { result :=
                  { reply := fallbackReply
                  , meta := { provider := "openai", model := openai.model
                            , usedFallback := true, errorCode := some "empty_response" } }
              , sent := some sent }
        else
          .ok { result :=
                  { reply := reply
                  , meta := { provider := "openai", model := openai.model
                            , usedFallback := false, errorCode := none } }
              , sent := some sent }

/-- `generateReply` (`generateReply.ts` lines 99-155) with its trace: the
`try` body plus the `catch` clause, which converts any thrown provider error
into a classified fallback result (the throw can only come from the provider
call, so in the catch case the prompt messages were sent). -/
def generateReplyRun (env : Env) (history : List HistTurn)
    (outcome : ProviderOutcome) : GenTrace :=
  match generateReplyTry env history outcome with
  | .ok t => t
  | .error err =>
    { result :=
        { reply := fallbackReply
        , meta := { provider := "openai", model := defaultedModel env
                  , usedFallback := true, errorCode := some (classifyOpenAiError err) } }
    , sent := some (promptMessages env history) }

/-- `generateReply` (`generateReply.ts` lines 99-155): the value returned to
the caller. -/
def generateReply (env : Env) (history : List HistTurn)
    (outcome : ProviderOutcome) : GenerateReplyResult :=
  (generateReplyRun env history outcome).result

/-- A stored `Conversation` row, restricted to the fields the embedded
operations read (`conversationRepository.ts`; schema in
`prisma/migrations/..._init/migration.sql`). -/
structure Conversation where
  id : String
  channel : String
  title : Option String
deriving DecidableEq, Repr

/-- A stored `Message` row. The persisted `metadata` JSON is
`{ llm: { provider, model, usedFallback, errorCode? } }`; it is represented by
the `ReplyMeta` inside (the `errorCode` key is spread in only when present,
which the `Option` captures). `createdAt` is an epoch-millisecond instant. -/
structure Msg where
  id : String
  conversationId : String
  direction : Direction
  content : String
  metadata : Option ReplyMeta
  createdAt : ℕ
deriving DecidableEq, Repr

/-- Modelled from the spec: the data-storage collaborator (Prisma/PostgreSQL)
behind the repository functions, which is external to the core source.
`messages` is kept in insertion order; per the data-model invariant, ordering
by creation time with ties broken by insertion order, so a chronological store
has non-decreasing `createdAt` along the list. `now` is the logical clock
supplying `createdAt` defaults and advances on every insert;
`nextConversationId` / `nextMessageId` generate the opaque server-side ids. -/
structure Store where
  conversations : List Conversation
  messages : List Msg
  nextConversationId : ℕ
  nextMessageId : ℕ
  now : ℕ
deriving DecidableEq, Repr

/-- `createConversation` (`conversationRepository.ts` lines 24-37): inserts a
fresh row and returns it. -/
def createConversation (store : Store) (channel : String) (title : Option String) :
    Conversation × Store :=
  let c : Conversation :=
    { id := "c" ++ toString store.nextConversationId, channel := channel, title := title }
  (c, { store with conversations := store.conversations ++ [c]
                 , nextConversationId := store.nextConversationId + 1 })

/-- `findConversationById` (`conversationRepository.ts` lines 39-42). -/
def findConversationById (store : Store) (id : String) : Option Conversation :=
  store.conversations.find? fun c => c.id = id

/-- `createMessage` (`messageRepository.ts` lines 20-30): inserts a row with a
fresh id and the current instant as `createdAt`. -/
def createMessage (store : Store) (conversationId : String) (direction : Direction)
    (content : String) (metadata : Option ReplyMeta) : Msg × Store :=
  let m : Msg :=
    { id := "m" ++ toString store.nextMessageId, conversationId := conversationId
    , direction := direction, content := content, metadata := metadata
    , createdAt := store.now }
  (m, { store with messages := store.messages ++ [m]
                 , nextMessageId := store.nextMessageId + 1
                 , now := store.now + 1 })

/-- `listMessagesByConversationId` (`messageRepository.ts` lines 32-38): all
messages of the conversation ordered by `createdAt` ascending — on a
chronologically kept store this is the filtered insertion order. -/
def listMessagesByConversationId (store : Store) (conversationId : String) : List Msg :=
  store.messages.filter fun m => m.conversationId = conversationId

/-- `listRecentMessagesByConversationId` (`messageRepository.ts` lines 40-51):
fetch ordered by `createdAt` descending (the reverse of the chronological
order), `take: limit`, then `.reverse()`. -/
def listRecentMessagesByConversationId (store : Store) (conversationId : String)
    (limit : ℕ) : List Msg :=
  (((listMessagesByConversationId store conversationId).reverse).take limit).reverse

/-- `ApiError` (`utils/apiError.ts` lines 62-71). -/
structure ApiError where
  statusCode : ℕ
  code : String
  message : String
deriving DecidableEq, Repr

/-- `SendMessageInput` (`chatService.ts` lines 63-66). -/
structure SendMessageInput where
  message : String
  sessionId : Option String
deriving DecidableEq, Repr

/-- `SendMessageResult` (`chatService.ts` lines 68-71). -/
structure SendMessageResult where
  reply : String
  sessionId : String
deriving DecidableEq, Repr

/-- `sendChatMessage` (`chatService.ts` lines 97-150), parameterised by the
environment and the provider-call outcome. The result pairs the returned
value (or thrown `ApiError`) with the store after the call. -/
def sendChatMessage (env : Env) (outcome : ProviderOutcome) (store : Store)
    (input : SendMessageInput) : Except ApiError SendMessageResult × Store :=
  let normalizedSessionId := input.sessionId.map jsTrim
  let resolved : Option Conversation × Store :=
    match normalizedSessionId with
    | none =>
      let cs := createConversation store "web" (some "Web session")
      (some cs.1, cs.2)
    | some sid =>
      if sid = "" then
        let cs := createConversation store "web" (some "Web session")
        (some cs.1, cs.2)
      else
        (findConversationById store sid, store)
  match resolved with
  | (none, s) =>
    (.error { statusCode := 404, code := "invalid_session", message := "Session not found" }, s)
  | (some conversation, s) =>
    let userText := jsTrim input.message
    let s1 := (createMessage s conversation.id .inbound userText none).2
    let history := listRecentMessagesByConversationId s1 conversation.id (HISTORY_LIMIT_nat env)
    let t := generateReplyRun env
      (history.map fun m => { role := toLlmRole m.direction, content := m.content }) outcome
    let s2 := (createMessage s1 conversation.id .outbound t.result.reply (some t.result.meta)).2
    (.ok { reply := t.result.reply, sessionId := conversation.id }, s2)

/-- Zero-padded decimal numeral of at least the given width. -/
def padNum (width n : ℕ) : String :=
  let s := toString n
  String.mk (List.replicate (width - s.length) '0') ++ s

/-- Proleptic-Gregorian civil date `(year, month, day)` of a day count since
1970-01-01 (days ≥ 0): the standard era/year-of-era/day-of-year computation. -/
def civilFromDays (z : ℕ) : ℕ × ℕ × ℕ :=
  let zs := z + 719468
  let era := zs / 146097
  let doe := zs % 146097
  let yoe := (doe - doe / 1460 + doe / 36524 - doe / 146096) / 365
  let y := yoe + era * 400
  let doy := doe - (365 * yoe + yoe / 4 - yoe / 100)
  let mp := (5 * doy + 2) / 153
  let d := doy - (153 * mp + 2) / 5 + 1
  let m := if mp < 10 then mp + 3 else mp - 9
  (if m ≤ 2 then y + 1 else y, m, d)

/-- Modelled from the spec: `Date.prototype.toISOString` for a non-negative
epoch-millisecond timestamp, `YYYY-MM-DDTHH:mm:ss.sssZ` (UTC). The `Date`
built-in is platform code, not part of this repository. -/
def toISOString (t : ℕ) : String :=
  let ms := t % 1000
  let secs := t / 1000
  let ss := secs % 60
  let mins := secs / 60
  let mm := mins % 60
  let hours := mins / 60
  let hh := hours % 24
  let days := hours / 24
  let ymd := civilFromDays days
  padNum 4 ymd.1 ++ "-" ++ padNum 2 ymd.2.1 ++ "-" ++ padNum 2 ymd.2.2 ++ "T" ++
    padNum 2 hh ++ ":" ++ padNum 2 mm ++ ":" ++ padNum 2 ss ++ "." ++ padNum 3 ms ++ "Z"

/-- `ChatMessageDto` (`chatService.ts` lines 73-78). -/
structure ChatMessageDto where
  id : String
  direction : Direction
  content : String
  createdAt : String
deriving DecidableEq, Repr

/-- `GetChatSessionResult` (`chatService.ts` lines 80-84). -/
structure GetChatSessionResult where
  reply : String
  sessionId : String
  messages : List ChatMessageDto
deriving DecidableEq, Repr

/-- `getChatSession` (`chatService.ts` lines 152-175): a read-only operation;
`lastOutbound` is `[...messages].reverse().find((m) => m.direction === "outbound")`. -/
def getChatSession (store : Store) (sessionId : String) :
    Except ApiError GetChatSessionResult :=
  match findConversationById store sessionId with
  | none =>
    .error { statusCode := 404, code := "not_found", message := "Conversation not found" }
  | some conversation =>
    let messages := listMessagesByConversationId store conversation.id
    let lastOutbound := messages.reverse.find? fun m => m.direction = .outbound
    .ok { reply := (lastOutbound.map Msg.content).getD ""
        , sessionId := conversation.id
        , messages := messages.map fun m =>
            { id := m.id, direction := m.direction, content := m.content
            , createdAt := toISOString m.createdAt } }

/-- The `POST /chat/message` handler (`routes/chat.ts` lines 61-78): reject a
message that is whitespace-only after trimming with a 400 `empty_message`
`ApiError` before any service call, then build the service input
(`sessionId ? { message, sessionId } : { message }`; JS truthiness drops an
empty-string sessionId) and delegate to `sendChatMessage`. -/
def postChatMessage (env : Env) (outcome : ProviderOutcome) (store : Store)
    (message : String) (sessionId : Option String) :
    Except ApiError SendMessageResult × Store :=
  if jsTrim message = "" then
    (.error { statusCode := 400, code := "empty_message", message := "Message must not be empty" }, store)
  else
    let input : SendMessageInput :=
      match sessionId with
      | some sid =>
        if sid = "" then { message := message, sessionId := none }
        else { message := message, sessionId := some sid }
      | none => { message := message, sessionId := none }
    sendChatMessage env outcome store input

/-! Concrete fixtures used by the witness theorems. -/

/-- An environment with no API credential configured. -/
def envNone : Env :=
  { openaiApiKey := none, openaiModel := none
  , llmHistoryLimit := .absent, llmMaxOutputTokens := .absent, llmTimeoutMs := .absent }

/-- An environment with a blank (whitespace-only) API credential. -/
def envBlankKey : Env :=
  { openaiApiKey := some "   ", openaiModel := none
  , llmHistoryLimit := .absent, llmMaxOutputTokens := .absent, llmTimeoutMs := .absent }

/-- An environment with a configured credential, an explicit model name and a
history limit of 2. -/
def envKey : Env :=
  { openaiApiKey := some "sk-test", openaiModel := some "m1"
  , llmHistoryLimit := .numeric 2, llmMaxOutputTokens := .numeric 100
  , llmTimeoutMs := .numeric 30000 }

/-- A stored conversation used by the store fixtures. -/
def convW : Conversation :=
  { id := "c0", channel := "web", title := some "Web session" }

/-- Four chronological messages of `convW`: inbound/outbound twice. -/
def msgsW : List Msg :=
  [ { id := "m0", conversationId := "c0", direction := .inbound, content := "hi"
    , metadata := none, createdAt := 0 }
  , { id := "m1", conversationId := "c0", direction := .outbound, content := "hello!"
    , metadata := none, createdAt := 1 }
  , { id := "m2", conversationId := "c0", direction := .inbound, content := "how long is shipping?"
    , metadata := none, createdAt := 2 }
  , { id := "m3", conversationId := "c0", direction := .outbound, content := "3-7 business days."
    , metadata := none, createdAt := 3 } ]

/-- A store holding `convW` and its four messages. -/
def storeW : Store :=
  { conversations := [convW], messages := msgsW
  , nextConversationId := 1, nextMessageId := 4, now := 4 }

/-- A three-turn history, longer than `envKey`'s limit of 2. -/
def histW : List HistTurn :=
  [ { role := .user, content := "a" }
  , { role := .assistant, content := "b" }
  , { role := .user, content := "c" } ]

/-- A thrown provider error with a 503 status and a timeout-like message. -/
def errW : JsError :=
  { status := some 503, message := some "upstream timeout" }

/-- An environment exercising all three clamping cases: non-numeric history
limit, absent output cap, numeric timeout above the valid range. -/
def envC8 : Env :=
  { openaiApiKey := none, openaiModel := none
  , llmHistoryLimit := .nonNumeric, llmMaxOutputTokens := .absent
  , llmTimeoutMs := .numeric 200000 }

/-! Helper lemmas (shared). -/

/-- The classifier only ever produces one of its four failure codes. -/
theorem classifyOpenAiError_mem_cases (e : JsError) :
    classifyOpenAiError e = "invalid_api_key" ∨ classifyOpenAiError e = "rate_limit" ∨
    classifyOpenAiError e = "timeout" ∨ classifyOpenAiError e = "provider_error" := by
  unfold classifyOpenAiError
  by_cases h1 : resolvedStatus e = some 401 ∨ resolvedStatus e = some 403 ∨
      resolvedCode e = some "invalid_api_key"
  · simp [h1]
  by_cases h2 : resolvedStatus e = some 429 ∨ resolvedCode e = some "rate_limit_exceeded"
  · simp [h1, h2]
  by_cases h3 : e.name.getD "" = "AbortError"
  · simp [h1, h2, h3]
  by_cases h4 : resolvedCode e = some "ETIMEDOUT" ∨ resolvedCode e = some "ECONNABORTED"
  · simp [h1, h2, h3, h4]
  by_cases h5 : strIncludes (jsToLower (e.message.getD "")) "timeout" = true ∨
      strIncludes (jsToLower (e.message.getD "")) "timed out" = true
  · simp [h1, h2, h3, h4, h5]
  · simp [h1, h2, h3, h4, h5]

/-- The fixed fallback reply is a nonempty string. -/
theorem fallbackReply_ne_empty : fallbackReply ≠ "" := by
  decide

/-- Case enumeration of a `generateReply` run: missing credential, empty
completion, thrown-and-classified error, or genuine success. -/
theorem generateReplyRun_cases (env : Env) (history : List HistTurn)
    (outcome : ProviderOutcome) :
    generateReplyRun env history outcome =
      { result := { reply := fallbackReply
                  , meta := { provider := "openai", model := defaultedModel env
                            , usedFallback := true, errorCode := some "missing_api_key" } }
      , sent := none } ∨
    (∃ m, generateReplyRun env history outcome =
      { result := { reply := fallbackReply
                  , meta := { provider := "openai", model := m
                            , usedFallback := true, errorCode := some "empty_response" } }
      , sent := some (promptMessages env history) }) ∨
    (∃ err, outcome = .threw err ∧ generateReplyRun env history outcome =
      { result := { reply := fallbackReply
                  , meta := { provider := "openai", model := defaultedModel env
                            , usedFallback := true, errorCode := some (classifyOpenAiError err) } }
      , sent := some (promptMessages env history) }) ∨
    (∃ m s, outcome = .success (some s) ∧ jsTrim s ≠ "" ∧
      generateReplyRun env history outcome =
      { result := { reply := jsTrim s
                  , meta := { provider := "openai", model := m
                            , usedFallback := false, errorCode := none } }
      , sent := some (promptMessages env history) }) := by
  unfold generateReplyRun generateReplyTry
  cases hc : getOpenAiClientFromEnvOrNull env with
  | none => exact Or.inl rfl
  | some openai =>
    rcases outcome with content | err
    · rcases content with _ | s
      · exact Or.inr (Or.inl ⟨openai.model, rfl⟩)
      · by_cases h : jsTrim s = ""
        · refine Or.inr (Or.inl ⟨openai.model, ?_⟩)
          simp [h]
        · refine Or.inr (Or.inr (Or.inr ⟨openai.model, s, rfl, h, ?_⟩))
          simp [h]
    · exact Or.inr (Or.inr (Or.inl ⟨err, rfl, rfl⟩))

/-- C1: for every input history and every outcome of the provider call
(including thrown provider errors, missing configuration, and empty
completions), `generateReply` returns normally with a result containing a
nonempty reply string and `"openai"` metadata; a thrown provider error never
propagates to the caller — it resolves to the fallback reply with
`usedFallback` set. -/
theorem generateReply_never_raises (env : Env) (history : List HistTurn)
    (outcome : ProviderOutcome) :
    (generateReply env history outcome).reply ≠ "" ∧
    (generateReply env history outcome).meta.provider = "openai" ∧
    (∀ err, outcome = .threw err →
      (generateReply env history outcome).reply = fallbackReply ∧
      (generateReply env history outcome).meta.usedFallback = true) := by
  rcases generateReplyRun_cases env history outcome with
    h | ⟨m, h⟩ | ⟨err2, hout, h⟩ | ⟨m, s, hout, hs, h⟩ <;>
    unfold generateReply <;> rw [h]
  · exact ⟨fallbackReply_ne_empty, rfl, fun e _ => ⟨rfl, rfl⟩⟩
  · exact ⟨fallbackReply_ne_empty, rfl, fun e _ => ⟨rfl, rfl⟩⟩
  · exact ⟨fallbackReply_ne_empty, rfl, fun e _ => ⟨rfl, rfl⟩⟩
  · refine ⟨hs, rfl, fun e he => ?_⟩
    rw [hout] at he
    cases he

/-- C2: when no API credential is configured (`OPENAI_API_KEY` absent or blank
after trimming), `generateReply` returns the fixed fallback reply with
metadata `provider := "openai"`, the defaulted model, `usedFallback := true`
and `errorCode := "missing_api_key"`, and never invokes the provider
completion operation (no message list is sent). -/
theorem generateReply_missing_api_key (env : Env) (history : List HistTurn)
    (outcome : ProviderOutcome)
    (h : (env.openaiApiKey.map jsTrim).getD "" = "") :
    generateReplyRun env history outcome =
      { result := { reply := fallbackReply
                  , meta := { provider := "openai", model := defaultedModel env
                            , usedFallback := true, errorCode := some "missing_api_key" } }
      , sent := none } := by
  have hc : getOpenAiConfigFromEnv env = none := by
    unfold getOpenAiConfigFromEnv
    cases hk : env.openaiApiKey with
    | none => rfl
    | some k =>
      rw [hk] at h
      simp only [Option.map_some', Option.getD_some] at h
      simp [h]
  unfold generateReplyRun generateReplyTry getOpenAiClientFromEnvOrNull
  simp [hc]

/-- C10: for every input and provider outcome, the metadata invariant holds:
the provider tag is always `"openai"`, an `errorCode` is present exactly when
`usedFallback` is true, and any present `errorCode` is one of the six codes
`missing_api_key`, `empty_response`, `invalid_api_key`, `timeout`,
`rate_limit`, `provider_error`. -/
theorem generateReply_meta_invariant (env : Env) (history : List HistTurn)
    (outcome : ProviderOutcome) :
    (generateReply env history outcome).meta.provider = "openai" ∧
    ((generateReply env history outcome).meta.errorCode.isSome ↔
      (generateReply env history outcome).meta.usedFallback = true) ∧
    (∀ c, (generateReply env history outcome).meta.errorCode = some c →
      c = "missing_api_key" ∨ c = "empty_response" ∨ c = "invalid_api_key" ∨
      c = "timeout" ∨ c = "rate_limit" ∨ c = "provider_error") := by
  rcases generateReplyRun_cases env history outcome with
    h | ⟨m, h⟩ | ⟨err2, hout, h⟩ | ⟨m, s, hout, hs, h⟩ <;> unfold generateReply <;> rw [h]
  · exact ⟨rfl, by simp, fun c hc => Or.inl (Option.some.inj hc).symm⟩
  · exact ⟨rfl, by simp, fun c hc => Or.inr (Or.inl (Option.some.inj hc).symm)⟩
  · refine ⟨rfl, by simp, ?_⟩
    intro c hc
    have hcc : c = classifyOpenAiError err2 := (Option.some.inj hc).symm
    rcases classifyOpenAiError_mem_cases err2 with h4 | h4 | h4 | h4 <;> rw [hcc, h4] <;> simp
  · exact ⟨rfl, by simp, fun c hc => Option.noConfusion hc⟩

/-- C3: the classification of a provider-call failure is always exactly one of
the four codes, follows the stated precedence (unauthorized/forbidden status
or invalid-credential code, then rate-limit status/code, then abort/timeout
signal, timeout-like code or timeout-like message, else `provider_error`),
and — when a credential is configured — `generateReply` on a thrown error
returns the fallback reply carrying that code with `usedFallback := true`. -/
theorem classifyOpenAiError_spec (env : Env) (history : List HistTurn)
    (e : JsError) (openai : OpenAiClient)
    (hcfg : getOpenAiClientFromEnvOrNull env = some openai) :
    (classifyOpenAiError e = "invalid_api_key" ∨ classifyOpenAiError e = "rate_limit" ∨
     classifyOpenAiError e = "timeout" ∨ classifyOpenAiError e = "provider_error") ∧
    ((resolvedStatus e = some 401 ∨ resolvedStatus e = some 403 ∨
        resolvedCode e = some "invalid_api_key") →
      classifyOpenAiError e = "invalid_api_key") ∧
    (¬(resolvedStatus e = some 401 ∨ resolvedStatus e = some 403 ∨
        resolvedCode e = some "invalid_api_key") →
      (resolvedStatus e = some 429 ∨ resolvedCode e = some "rate_limit_exceeded") →
      classifyOpenAiError e = "rate_limit") ∧
    (¬(resolvedStatus e = some 401 ∨ resolvedStatus e = some 403 ∨
        resolvedCode e = some "invalid_api_key") →
      ¬(resolvedStatus e = some 429 ∨ resolvedCode e = some "rate_limit_exceeded") →
      (e.name.getD "" = "AbortError" ∨
       resolvedCode e = some "ETIMEDOUT" ∨ resolvedCode e = some "ECONNABORTED" ∨
       strIncludes (jsToLower (e.message.getD "")) "timeout" = true ∨
       strIncludes (jsToLower (e.message.getD "")) "timed out" = true) →
      classifyOpenAiError e = "timeout") ∧
    (¬(resolvedStatus e = some 401 ∨ resolvedStatus e = some 403 ∨
        resolvedCode e = some "invalid_api_key") →
      ¬(resolvedStatus e = some 429 ∨ resolvedCode e = some "rate_limit_exceeded") →
      ¬(e.name.getD "" = "AbortError" ∨
        resolvedCode e = some "ETIMEDOUT" ∨ resolvedCode e = some "ECONNABORTED" ∨
        strIncludes (jsToLower (e.message.getD "")) "timeout" = true ∨
        strIncludes (jsToLower (e.message.getD "")) "timed out" = true) →
      classifyOpenAiError e = "provider_error") ∧
    generateReply env history (.threw e) =
      { reply := fallbackReply
      , meta := { provider := "openai", model := defaultedModel env
                , usedFallback := true, errorCode := some (classifyOpenAiError e) } } := by
  refine ⟨classifyOpenAiError_mem_cases e, ?_, ?_, ?_, ?_, ?_⟩
  · intro h1
    unfold classifyOpenAiError
    simp [h1]
  · intro h1 h2
    unfold classifyOpenAiError
    simp [h1, h2]
  · intro h1 h2 h3
    unfold classifyOpenAiError
    by_cases c3 : e.name.getD "" = "AbortError"
    · simp [h1, h2, c3]
    by_cases c4 : resolvedCode e = some "ETIMEDOUT" ∨ resolvedCode e = some "ECONNABORTED"
    · simp [h1, h2, c3, c4]
    have c5 : strIncludes (jsToLower (e.message.getD "")) "timeout" = true ∨
        strIncludes (jsToLower (e.message.getD "")) "timed out" = true := by
      rcases h3 with h | h | h | h | h
      · exact absurd h c3
      · exact absurd (Or.inl h) c4
      · exact absurd (Or.inr h) c4
      · exact Or.inl h
      · exact Or.inr h
    simp [h1, h2, c3, c4, c5]
  · intro h1 h2 h3
    have c3 : ¬e.name.getD "" = "AbortError" := fun h => h3 (Or.inl h)
    have c4 : ¬(resolvedCode e = some "ETIMEDOUT" ∨ resolvedCode e = some "ECONNABORTED") := by
      rintro (h | h)
      · exact h3 (Or.inr (Or.inl h))
      · exact h3 (Or.inr (Or.inr (Or.inl h)))
    have c5 : ¬(strIncludes (jsToLower (e.message.getD "")) "timeout" = true ∨
        strIncludes (jsToLower (e.message.getD "")) "timed out" = true) := by
      rintro (h | h)
      · exact h3 (Or.inr (Or.inr (Or.inr (Or.inl h))))
      · exact h3 (Or.inr (Or.inr (Or.inr (Or.inr h))))
    unfold classifyOpenAiError
    simp [h1, h2, c3, c4, c5]
  · unfold generateReply generateReplyRun generateReplyTry
    rw [hcfg]

/-- C4: under a configured credential, a successful completion whose content
trims to a nonempty string is returned trimmed with
`usedFallback := false` and no `errorCode`; an absent, empty or
whitespace-only content yields the fallback reply with
`errorCode := "empty_response"`. -/
theorem generateReply_success_spec (env : Env) (history : List HistTurn)
    (content : Option String) (openai : OpenAiClient)
    (hcfg : getOpenAiClientFromEnvOrNull env = some openai) :
    ((content.map jsTrim).getD "" ≠ "" →
      generateReply env history (.success content) =
        { reply := jsTrim (content.getD "")
        , meta := { provider := "openai", model := openai.model
                  , usedFallback := false, errorCode := none } }) ∧
    ((content.map jsTrim).getD "" = "" →
      generateReply env history (.success content) =
        { reply := fallbackReply
        , meta := { provider := "openai", model := openai.model
                  , usedFallback := true, errorCode := some "empty_response" } }) := by
  unfold generateReply generateReplyRun generateReplyTry
  rw [hcfg]
  rcases content with _ | s
  · constructor
    · intro h
      exact absurd rfl h
    · intro _
      rfl
  · by_cases h : jsTrim s = ""
    · constructor
      · intro hne
        simp only [Option.map_some', Option.getD_some] at hne
        exact absurd h hne
      · intro _
        simp [h]
    · constructor
      · intro _
        simp [h]
      · intro he
        simp only [Option.map_some', Option.getD_some] at he
        exact absurd he h

/-- Reversing a `take` of a reversed list yields the suffix of the original:
the fetch-descending-then-reverse idiom equals `drop (length - n)`. -/
theorem reverse_take_reverse (l : List α) (n : ℕ) :
    (l.reverse.take n).reverse = l.drop (l.length - n) := by
  rw [List.take_reverse, List.reverse_reverse]

/-- `find?` returns the head of the filtered list. -/
theorem find?_eq_head?_filter (p : α → Bool) (l : List α) :
    l.find? p = (l.filter p).head? := by
  induction l with
  | nil => rfl
  | cons a l ih =>
    by_cases h : p a = true
    · rw [List.find?_cons_of_pos _ h, List.filter_cons_of_pos h, List.head?_cons]
    · rw [List.find?_cons_of_neg _ h, List.filter_cons_of_neg h, ih]

/-- Searching a reversed list returns the last match of the original order. -/
theorem reverse_find?_eq_getLast?_filter (p : α → Bool) (l : List α) :
    l.reverse.find? p = (l.filter p).getLast? := by
  rw [find?_eq_head?_filter, List.filter_reverse, List.head?_reverse]

/-- C5: the bounded history read equals the last-`limit` suffix of the
chronological message list (so it contains the `limit` most recent messages,
all of them when fewer exist, in oldest-to-newest order, and stays sorted);
the defensive LLM-layer application is pure truncation to the last-`N`
suffix; and whenever a message list is sent to the provider it consists of
the two fixed system texts plus at most `MAX_HISTORY_MESSAGES` history
turns. -/
theorem history_bounding_spec (store : Store) (cid : String) (limit : ℕ)
    (env : Env) (history : List HistTurn) (outcome : ProviderOutcome)
    (hsorted : store.messages.Pairwise fun a b => a.createdAt ≤ b.createdAt) :
    listRecentMessagesByConversationId store cid limit =
      (listMessagesByConversationId store cid).drop
        ((listMessagesByConversationId store cid).length - limit) ∧
    (listRecentMessagesByConversationId store cid limit).length =
      min limit (listMessagesByConversationId store cid).length ∧
    listRecentMessagesByConversationId store cid limit
      <:+ listMessagesByConversationId store cid ∧
    (listRecentMessagesByConversationId store cid limit).Pairwise
      (fun a b => a.createdAt ≤ b.createdAt) ∧
    boundedHistory env history <:+ history ∧
    (boundedHistory env history).length ≤ MAX_HISTORY_MESSAGES_nat env ∧
    (history.length ≤ MAX_HISTORY_MESSAGES_nat env →
      boundedHistory env history = history) ∧
    (∀ msgs, (generateReplyRun env history outcome).sent = some msgs →
      msgs.length = 2 + (boundedHistory env history).length ∧
      msgs.length ≤ 2 + MAX_HISTORY_MESSAGES_nat env) := by
  have hdrop : listRecentMessagesByConversationId store cid limit =
      (listMessagesByConversationId store cid).drop
        ((listMessagesByConversationId store cid).length - limit) := by
    unfold listRecentMessagesByConversationId
    exact reverse_take_reverse _ _
  have hblen : (boundedHistory env history).length ≤ MAX_HISTORY_MESSAGES_nat env := by
    unfold boundedHistory sliceLast
    rw [List.length_drop]
    omega
  have hplen : (promptMessages env history).length =
      2 + (boundedHistory env history).length := by
    simp only [promptMessages, List.length_cons, List.length_map]
    omega
  refine ⟨hdrop, ?_, ?_, ?_, ?_, hblen, ?_, ?_⟩
  · rw [hdrop, List.length_drop]
    omega
  · rw [hdrop]
    exact List.drop_suffix _ _
  · rw [hdrop]
    exact (hsorted.filter _).sublist (List.drop_sublist _ _)
  · unfold boundedHistory sliceLast
    exact List.drop_suffix _ _
  · intro h
    unfold boundedHistory sliceLast
    rw [Nat.sub_eq_zero_of_le h, List.drop_zero]
  · intro msgs hsent
    rcases generateReplyRun_cases env history outcome with
      h | ⟨m, h⟩ | ⟨err2, hout, h⟩ | ⟨m, s, hout, hs, h⟩ <;> rw [h] at hsent
    · cases hsent
    all_goals
      have hmsgs : msgs = promptMessages env history := (Option.some.inj hsent).symm
    all_goals rw [hmsgs, hplen]
    all_goals exact ⟨rfl, by omega⟩

/-- C6: a message that trims to the empty string is rejected by the send
operation with a 400 `empty_message` `ApiError`, and the data store is
returned unchanged — nothing is created or persisted. -/
theorem send_empty_message (env : Env) (outcome : ProviderOutcome) (store : Store)
    (message : String) (sessionId : Option String)
    (h : jsTrim message = "") :
    postChatMessage env outcome store message sessionId =
      (.error { statusCode := 400, code := "empty_message"
              , message := "Message must not be empty" }, store) := by
  unfold postChatMessage
  rw [if_pos h]

/-- C7: a trimmed-nonempty sessionId that does not identify a stored
conversation makes `sendChatMessage` fail with the 404 `invalid_session`
error and leave the store unchanged, and makes `getChatSession` fail with
the 404 `not_found` error (it is a pure read). -/
theorem invalid_session_not_found (env : Env) (outcome : ProviderOutcome)
    (store : Store) (message sid : String) :
    (jsTrim sid ≠ "" → findConversationById store (jsTrim sid) = none →
      sendChatMessage env outcome store { message := message, sessionId := some sid } =
        (.error { statusCode := 404, code := "invalid_session"
                , message := "Session not found" }, store)) ∧
    (findConversationById store sid = none →
      getChatSession store sid =
        .error { statusCode := 404, code := "not_found"
               , message := "Conversation not found" }) := by
  constructor
  · intro hne hfind
    unfold sendChatMessage
    simp [hne, hfind]
  · intro hfind
    unfold getChatSession
    rw [hfind]

/-- On sane bounds, the clamp always lands inside the valid range. -/
theorem clampInt_le_bounds (v : EnvNum) (lo hi fb : ℤ) (h1 : lo ≤ fb)
    (h2 : fb ≤ hi) (h3 : lo ≤ hi) :
    lo ≤ clampInt v lo hi fb ∧ clampInt v lo hi fb ≤ hi := by
  cases v with
  | absent => exact ⟨h1, h2⟩
  | nonNumeric => exact ⟨h1, h2⟩
  | numeric q => exact ⟨le_max_left _ _, max_le h3 (min_le_left _ _)⟩

/-- C8: each configuration parameter falls back to its stated default on
absent/blank/non-numeric input, otherwise is the truncated value clamped
into its valid range; in all cases the effective value lies within the valid
range (history limit in [1,100] default 20, max output in [1,2000] default
250, timeout in [1000,120000] default 15000). -/
theorem config_clamped_spec (env : Env) :
    (1 ≤ HISTORY_LIMIT env ∧ HISTORY_LIMIT env ≤ 100) ∧
    (1 ≤ MAX_OUTPUT_TOKENS env ∧ MAX_OUTPUT_TOKENS env ≤ 2000) ∧
    (1000 ≤ LLM_TIMEOUT_MS env ∧ LLM_TIMEOUT_MS env ≤ 120000) ∧
    ((env.llmHistoryLimit = .absent ∨ env.llmHistoryLimit = .nonNumeric) →
      HISTORY_LIMIT env = 20) ∧
    ((env.llmMaxOutputTokens = .absent ∨ env.llmMaxOutputTokens = .nonNumeric) →
      MAX_OUTPUT_TOKENS env = 250) ∧
    ((env.llmTimeoutMs = .absent ∨ env.llmTimeoutMs = .nonNumeric) →
      LLM_TIMEOUT_MS env = 15000) ∧
    (∀ q, env.llmHistoryLimit = .numeric q →
      HISTORY_LIMIT env = Max.max 1 (Min.min 100 (ratTrunc q))) ∧
    (∀ q, env.llmMaxOutputTokens = .numeric q →
      MAX_OUTPUT_TOKENS env = Max.max 1 (Min.min 2000 (ratTrunc q))) ∧
    (∀ q, env.llmTimeoutMs = .numeric q →
      LLM_TIMEOUT_MS env = Max.max 1000 (Min.min 120000 (ratTrunc q))) := by
  refine ⟨clampInt_le_bounds _ _ _ _ (by norm_num) (by norm_num) (by norm_num),
          clampInt_le_bounds _ _ _ _ (by norm_num) (by norm_num) (by norm_num),
          clampInt_le_bounds _ _ _ _ (by norm_num) (by norm_num) (by norm_num),
          ?_, ?_, ?_, ?_, ?_, ?_⟩
  · rintro (h | h) <;> simp [HISTORY_LIMIT, clampInt, h]
  · rintro (h | h) <;> simp [MAX_OUTPUT_TOKENS, clampInt, h]
  · rintro (h | h) <;> simp [LLM_TIMEOUT_MS, clampInt, h]
  · intro q h
    simp [HISTORY_LIMIT, clampInt, h]
  · intro q h
    simp [MAX_OUTPUT_TOKENS, clampInt, h]
  · intro q h
    simp [LLM_TIMEOUT_MS, clampInt, h]

/-- C9: for a stored conversation, `getSession` returns the content of the
chronologically last outbound message as `reply` (empty string when none),
together with the full chronological message list mapped to DTOs carrying
id, direction, content and the ISO-8601 creation timestamp; on a
chronologically kept store the listed messages are sorted oldest to
newest. -/
theorem getSession_spec (store : Store) (sid : String)
    (conversation : Conversation)
    (hfind : findConversationById store sid = some conversation)
    (hsorted : store.messages.Pairwise fun a b => a.createdAt ≤ b.createdAt) :
    getChatSession store sid = .ok
      { reply := (((listMessagesByConversationId store conversation.id).filter
            (fun m => m.direction = Direction.outbound)).getLast?.map Msg.content).getD ""
      , sessionId := conversation.id
      , messages := (listMessagesByConversationId store conversation.id).map fun m =>
          { id := m.id, direction := m.direction, content := m.content
          , createdAt := toISOString m.createdAt } } ∧
    (listMessagesByConversationId store conversation.id).Pairwise
      (fun a b => a.createdAt ≤ b.createdAt) := by
  constructor
  · simp only [getChatSession, hfind]
    rw [reverse_find?_eq_getLast?_filter]
  · exact hsorted.filter _

/-- Witness for `generateReply_never_raises`: a thrown error with no
credential configured still yields the fallback result. -/
theorem generateReply_never_raises_witness :
    (generateReply envNone [] (.threw {})).reply ≠ "" ∧
    (generateReply envNone [] (.threw {})).meta.provider = "openai" ∧
    (generateReply envNone [] (.threw {})).reply = fallbackReply ∧
    (generateReply envNone [] (.threw {})).meta.usedFallback = true :=
  ⟨(generateReply_never_raises envNone [] (.threw {})).1,
   (generateReply_never_raises envNone [] (.threw {})).2.1,
   ((generateReply_never_raises envNone [] (.threw {})).2.2 {} rfl).1,
   ((generateReply_never_raises envNone [] (.threw {})).2.2 {} rfl).2⟩

/-- Witness for `generateReply_missing_api_key`: a blank key short-circuits
to the missing-credential fallback without any provider call. -/
theorem generateReply_missing_api_key_witness :
    (envBlankKey.openaiApiKey.map jsTrim).getD "" = "" ∧
    generateReplyRun envBlankKey [] (.success (some "hi")) =
      { result := { reply := fallbackReply
                  , meta := { provider := "openai", model := defaultedModel envBlankKey
                            , usedFallback := true, errorCode := some "missing_api_key" } }
      , sent := none } :=
  ⟨by decide,
   generateReply_missing_api_key envBlankKey [] (.success (some "hi")) (by decide)⟩

/-- Witness for `classifyOpenAiError_spec`: a 503 with a timeout-like message
classifies as `timeout` and surfaces as that fallback `errorCode`. -/
theorem classifyOpenAiError_spec_witness :
    getOpenAiClientFromEnvOrNull envKey = some ⟨"sk-test", 30000, "m1"⟩ ∧
    classifyOpenAiError errW = "timeout" ∧
    generateReply envKey [] (.threw errW) =
      { reply := fallbackReply
      , meta := { provider := "openai", model := "m1"
                , usedFallback := true, errorCode := some "timeout" } } := by
  have h := classifyOpenAiError_spec envKey [] errW ⟨"sk-test", 30000, "m1"⟩ (by decide)
  have ht : classifyOpenAiError errW = "timeout" :=
    h.2.2.2.1 (by decide) (by decide) (Or.inr (Or.inr (Or.inr (Or.inl (by decide)))))
  have he := h.2.2.2.2.2
  rw [ht] at he
  exact ⟨by decide, ht, he⟩

/-- Witness for `generateReply_success_spec`: content that trims to `"ok"`
is returned trimmed; whitespace-only content yields `empty_response`. -/
theorem generateReply_success_spec_witness :
    getOpenAiClientFromEnvOrNull envKey = some ⟨"sk-test", 30000, "m1"⟩ ∧
    ((some "  ok  ").map jsTrim).getD "" ≠ "" ∧
    generateReply envKey [] (.success (some "  ok  ")) =
      { reply := jsTrim ((some "  ok  ").getD "")
      , meta := { provider := "openai", model := "m1"
                , usedFallback := false, errorCode := none } } ∧
    ((some "   ").map jsTrim).getD "" = "" ∧
    generateReply envKey [] (.success (some "   ")) =
      { reply := fallbackReply
      , meta := { provider := "openai", model := "m1"
                , usedFallback := true, errorCode := some "empty_response" } } := by
  have h1 := generateReply_success_spec envKey [] (some "  ok  ")
    ⟨"sk-test", 30000, "m1"⟩ (by decide)
  have h2 := generateReply_success_spec envKey [] (some "   ")
    ⟨"sk-test", 30000, "m1"⟩ (by decide)
  exact ⟨by decide, by decide, h1.1 (by decide), by decide, h2.2 (by decide)⟩

/-- Witness for `history_bounding_spec`: four stored messages read with
limit 3, and a three-turn history truncated to `envKey`'s limit of 2, so the
provider sees 2 + 2 messages. -/
theorem history_bounding_spec_witness :
    storeW.messages.Pairwise (fun a b => a.createdAt ≤ b.createdAt) ∧
    listRecentMessagesByConversationId storeW "c0" 3 =
      (listMessagesByConversationId storeW "c0").drop
        ((listMessagesByConversationId storeW "c0").length - 3) ∧
    (listRecentMessagesByConversationId storeW "c0" 3).length =
      min 3 (listMessagesByConversationId storeW "c0").length ∧
    listRecentMessagesByConversationId storeW "c0" 3
      <:+ listMessagesByConversationId storeW "c0" ∧
    (listRecentMessagesByConversationId storeW "c0" 3).Pairwise
      (fun a b => a.createdAt ≤ b.createdAt) ∧
    boundedHistory envKey histW <:+ histW ∧
    (boundedHistory envKey histW).length ≤ MAX_HISTORY_MESSAGES_nat envKey ∧
    (promptMessages envKey histW).length = 2 + (boundedHistory envKey histW).length ∧
    (promptMessages envKey histW).length ≤ 2 + MAX_HISTORY_MESSAGES_nat envKey := by
  have h := history_bounding_spec storeW "c0" 3 envKey histW (.success (some "x"))
    (by decide)
  exact ⟨by decide, h.1, h.2.1, h.2.2.1, h.2.2.2.1, h.2.2.2.2.1, h.2.2.2.2.2.1,
         (h.2.2.2.2.2.2.2 (promptMessages envKey histW) rfl).1,
         (h.2.2.2.2.2.2.2 (promptMessages envKey histW) rfl).2⟩

/-- Witness for `send_empty_message`: a whitespace-only message is rejected
and the store is untouched. -/
theorem send_empty_message_witness :
    jsTrim "   " = "" ∧
    postChatMessage envNone (.success (some "x")) storeW "   " none =
      (.error { statusCode := 400, code := "empty_message"
              , message := "Message must not be empty" }, storeW) :=
  ⟨by decide,
   send_empty_message envNone (.success (some "x")) storeW "   " none (by decide)⟩

/-- Witness for `invalid_session_not_found`: the unknown session id
`"nope"` makes `send` fail with `invalid_session` and `getSession` fail with
`not_found`. -/
theorem invalid_session_not_found_witness :
    jsTrim "nope" ≠ "" ∧
    findConversationById storeW (jsTrim "nope") = none ∧
    findConversationById storeW "nope" = none ∧
    sendChatMessage envKey (.success (some "x")) storeW
        { message := "hi", sessionId := some "nope" } =
      (.error { statusCode := 404, code := "invalid_session"
              , message := "Session not found" }, storeW) ∧
    getChatSession storeW "nope" =
      .error { statusCode := 404, code := "not_found"
             , message := "Conversation not found" } := by
  have h := invalid_session_not_found envKey (.success (some "x")) storeW "hi" "nope"
  exact ⟨by decide, by decide, by decide, h.1 (by decide) (by decide), h.2 (by decide)⟩

/-- Witness for `config_clamped_spec`: non-numeric and absent inputs fall
back to the defaults; a numeric 200000 ms timeout is clamped into range. -/
theorem config_clamped_spec_witness :
    (1 ≤ HISTORY_LIMIT envC8 ∧ HISTORY_LIMIT envC8 ≤ 100) ∧
    (1 ≤ MAX_OUTPUT_TOKENS envC8 ∧ MAX_OUTPUT_TOKENS envC8 ≤ 2000) ∧
    (1000 ≤ LLM_TIMEOUT_MS envC8 ∧ LLM_TIMEOUT_MS envC8 ≤ 120000) ∧
    HISTORY_LIMIT envC8 = 20 ∧
    MAX_OUTPUT_TOKENS envC8 = 250 ∧
    LLM_TIMEOUT_MS envC8 = Max.max 1000 (Min.min 120000 (ratTrunc 200000)) := by
  have h := config_clamped_spec envC8
  exact ⟨h.1, h.2.1, h.2.2.1, h.2.2.2.1 (Or.inr rfl), h.2.2.2.2.1 (Or.inl rfl),
         h.2.2.2.2.2.2.2.2 200000 rfl⟩

/-- Witness for `getSession_spec` on the four-message store: the session read
succeeds with the last outbound content as reply. -/
theorem getSession_spec_witness :
    findConversationById storeW "c0" = some convW ∧
    storeW.messages.Pairwise (fun a b => a.createdAt ≤ b.createdAt) ∧
    getChatSession storeW "c0" = .ok
      { reply := (((listMessagesByConversationId storeW convW.id).filter
            (fun m => m.direction = Direction.outbound)).getLast?.map Msg.content).getD ""
      , sessionId := convW.id
      , messages := (listMessagesByConversationId storeW convW.id).map fun m =>
          { id := m.id, direction := m.direction, content := m.content
          , createdAt := toISOString m.createdAt } } ∧
    (listMessagesByConversationId storeW convW.id).Pairwise
      (fun a b => a.createdAt ≤ b.createdAt) := by
  have h := getSession_spec storeW "c0" convW (by decide) (by decide)
  exact ⟨by decide, by decide, h.1, h.2⟩

/-- Witness for `generateReply_meta_invariant` at a thrown 503 with a
timeout-like message. -/
theorem generateReply_meta_invariant_witness :
    (generateReply envKey [] (.threw errW)).meta.provider = "openai" ∧
    ((generateReply envKey [] (.threw errW)).meta.errorCode.isSome ↔
      (generateReply envKey [] (.threw errW)).meta.usedFallback = true) ∧
    ((generateReply envKey [] (.threw errW)).meta.errorCode = some "timeout" ∧
      ("timeout" = "missing_api_key" ∨ "timeout" = "empty_response" ∨
       "timeout" = "invalid_api_key" ∨ "timeout" = "timeout" ∨
       "timeout" = "rate_limit" ∨ "timeout" = "provider_error")) := by
  have h := generateReply_meta_invariant envKey [] (.threw errW)
  exact ⟨h.1, h.2.1, by decide, h.2.2 "timeout" (by decide)⟩

end Chatbot
